import Mathlib

/-
Verification of the ingestion-and-normalization core of the near-Earth-object
repository (src/extract.py, src/models.py) against its specification.

Shallow embedding conventions:
- Python floats are modelled by `PyFloat`: the not-a-number sentinel, the two
  infinities, and finite values as exact rationals (rounding plays no role in
  any property below; every float in the source is either a parsed constant
  passed through unchanged or the NaN sentinel).
- Python exceptions are modelled by `Except PyError`: a loader either returns
  a fully built collection (`.ok`) or aborts with the exception (`.error`),
  which is exactly CPython's behavior for an uncaught exception inside the
  loops of `load_neos` / `load_approaches`.
- A CSV file read through `csv.DictReader` is modelled as a header row plus a
  list of data rows (`CsvFile`); the JSON payload consumed by
  `load_approaches` as a fields list plus a list of row arrays (`CadJson`),
  with the cell values as strings as in the NASA close-approach feed.
- Python dicts built by `zip(fields, row)` become association lists built by
  `List.zip`; a missing key is a `KeyError`.
-/

/-- Model of a CPython `float` value: the NaN sentinel, the two infinities,
or a finite value represented exactly as a rational. -/
inductive PyFloat : Type where
  | nan : PyFloat
  | inf : PyFloat
  | ninf : PyFloat
  | finite : ℚ → PyFloat
deriving DecidableEq, Repr

/-- The Python exceptions the modelled core can raise. -/
inductive PyError : Type where
  | keyError : PyError
  | valueError : PyError
  | attributeError : PyError
deriving DecidableEq, Repr

/-- Numeric value of a list of decimal digit characters (most significant first). -/
def digitsVal (l : List Char) : Nat :=
  l.foldl (fun a c => 10 * a + (c.toNat - 48)) 0

/-- Whitespace stripped by Python's `float(str)` before parsing. -/
def isPySpace (c : Char) : Bool :=
  c == ' ' || c == '\t' || c == '\n' || c == '\r'

/-- Characters of a string with leading and trailing whitespace removed,
as Python's `str.strip` does before `float` parses. -/
def pyStrip (s : String) : List Char :=
  ((s.toList.dropWhile isPySpace).reverse.dropWhile isPySpace).reverse

/-- Exponent part of a float literal: after the `e`, an optional sign then a
nonempty run of digits consuming the rest of the input. -/
def parseExp (l : List Char) : Option Int :=
  match l with
  | '+' :: r => if r ≠ [] ∧ r.all Char.isDigit then some (digitsVal r : Int) else none
  | '-' :: r => if r ≠ [] ∧ r.all Char.isDigit then some (-(digitsVal r : Int)) else none
  | r => if r ≠ [] ∧ r.all Char.isDigit then some (digitsVal r : Int) else none

/-- Mantissa value: integer digits and fractional digits. -/
def mantissaVal (intPart fracPart : List Char) : ℚ :=
  (digitsVal intPart : ℚ) + (digitsVal fracPart : ℚ) / (10 : ℚ) ^ fracPart.length

/-- Unsigned decimal literal of Python's `float`: digits with an optional
decimal point (at least one digit overall) and an optional exponent. -/
def parseDecimal (l : List Char) : Option ℚ :=
  let intPart := l.takeWhile Char.isDigit
  let rest1 := l.dropWhile Char.isDigit
  match rest1 with
  | [] => if intPart = [] then none else some (digitsVal intPart : ℚ)
  | '.' :: r =>
    let fracPart := r.takeWhile Char.isDigit
    let rest2 := r.dropWhile Char.isDigit
    if intPart = [] ∧ fracPart = [] then none
    else
      match rest2 with
      | [] => some (mantissaVal intPart fracPart)
      | 'e' :: e => (parseExp e).map fun k => mantissaVal intPart fracPart * (10 : ℚ) ^ k
      | 'E' :: e => (parseExp e).map fun k => mantissaVal intPart fracPart * (10 : ℚ) ^ k
      | _ => none
  | 'e' :: e =>
    if intPart = [] then none
    else (parseExp e).map fun k => (digitsVal intPart : ℚ) * (10 : ℚ) ^ k
  | 'E' :: e =>
    if intPart = [] then none
    else (parseExp e).map fun k => (digitsVal intPart : ℚ) * (10 : ℚ) ^ k
  | _ => none

/-- Model of CPython's `float(str)` conversion: strip whitespace, read an
optional sign, then either one of the special literals `nan` / `inf` /
`infinity` (case-insensitive) or a decimal literal; anything else is a
`ValueError`, represented as `none`. -/
def parseFloat (s : String) : Option PyFloat :=
  let l := pyStrip s
  let signed : Bool × List Char :=
    match l with
    | '+' :: r => (false, r)
    | '-' :: r => (true, r)
    | r => (false, r)
  let neg := signed.1
  let body := signed.2.map Char.toLower
  if body = "nan".toList then some PyFloat.nan
  else if body = "inf".toList ∨ body = "infinity".toList then
    some (if neg then PyFloat.ninf else PyFloat.inf)
  else
    (parseDecimal signed.2).map fun q => PyFloat.finite (if neg then -q else q)

/-- Python's `float(s)`, raising `ValueError` on failure, as the source does at
`float(neo["diameter"])`, `float(cad["dist"])` and `float(cad["v_rel"])`. -/
def pyFloatFn (s : String) : Except PyError PyFloat :=
  match parseFloat s with
  | some f => Except.ok f
  | none => Except.error PyError.valueError

/-- Modelled from the spec: the `helpers` module imported by `src/models.py`
(`cd_to_datetime`, `datetime_to_str`) is not in the source tree. Per the spec,
the approach time is a calendar datetime with minute precision (no seconds),
implicitly UTC. -/
structure PyDateTime : Type where
  year : Nat
  month : Nat
  day : Nat
  hour : Nat
  minute : Nat
deriving DecidableEq, Repr

/-- Month number of a three-letter English month abbreviation. -/
def monthOfAbbrev : String → Option Nat
  | "Jan" => some 1
  | "Feb" => some 2
  | "Mar" => some 3
  | "Apr" => some 4
  | "May" => some 5
  | "Jun" => some 6
  | "Jul" => some 7
  | "Aug" => some 8
  | "Sep" => some 9
  | "Oct" => some 10
  | "Nov" => some 11
  | "Dec" => some 12
  | _ => none

/-- Modelled from the spec: `cd_to_datetime` of the missing `helpers` module.
The spec fixes a compact calendar date/time format with minute precision,
exemplified by rows such as `1900-Jan-01 12:00`; a malformed string is a
malformed-input error (`ValueError`). -/
def cd_to_datetime (cd : String) : Except PyError PyDateTime :=
  match cd.toList with
  | [y1, y2, y3, y4, s1, m1, m2, m3, s2, d1, d2, s3, h1, h2, s4, n1, n2] =>
    if y1.isDigit && y2.isDigit && y3.isDigit && y4.isDigit &&
        s1 == '-' && s2 == '-' && s3 == ' ' && s4 == ':' &&
        d1.isDigit && d2.isDigit && h1.isDigit && h2.isDigit &&
        n1.isDigit && n2.isDigit then
      match monthOfAbbrev (String.mk [m1, m2, m3]) with
      | some m =>
        Except.ok ⟨digitsVal [y1, y2, y3, y4], m, digitsVal [d1, d2],
          digitsVal [h1, h2], digitsVal [n1, n2]⟩
      | none => Except.error PyError.valueError
    else Except.error PyError.valueError
  | _ => Except.error PyError.valueError

/-- Decimal digit character for `n % 10`. -/
def digit10 (n : Nat) : Char :=
  Char.ofNat (48 + n % 10)

/-- A number rendered as exactly two decimal digits, zero-padded. -/
def pad2 (n : Nat) : String :=
  String.mk [digit10 (n / 10), digit10 n]

/-- A number rendered as exactly four decimal digits, zero-padded. -/
def pad4 (n : Nat) : String :=
  String.mk [digit10 (n / 1000), digit10 (n / 100), digit10 (n / 10), digit10 n]

/-- Modelled from the spec: `datetime_to_str` of the missing `helpers` module.
It renders the approach time for human-readable output and serialization
without a seconds component. -/
def datetime_to_str (t : PyDateTime) : String :=
  pad4 t.year ++ "-" ++ pad2 t.month ++ "-" ++ pad2 t.day ++ " " ++
    pad2 t.hour ++ ":" ++ pad2 t.minute

/-
Entity model (src/models.py). `NearEarthObject.approaches` holds
`CloseApproach` values and `CloseApproach.neo` optionally references a
`NearEarthObject`, so the two types are mutually inductive. Within the core
under verification, `approaches` is always the empty list and `neo` is always
`none` (both are mutated only by the external Linker).
-/

mutual
/-- A near-Earth object (src/models.py, class `NearEarthObject`): primary
designation, optional IAU name, diameter in km (NaN when unknown), hazardous
flag, and its owned collection of close approaches. -/
inductive NearEarthObject : Type where
  | mk : String → Option String → PyFloat → Bool → List CloseApproach →
      NearEarthObject

/-- A close approach (src/models.py, class `CloseApproach`): the private
designation foreign key, approach time, nominal distance (au), relative
velocity (km/s), and the back-reference to its NEO (initially `None`). -/
inductive CloseApproach : Type where
  | mk : String → PyDateTime → PyFloat → PyFloat → Option NearEarthObject →
      CloseApproach
end

/-- `self.designation` attribute of a `NearEarthObject`. -/
def NearEarthObject.designation : NearEarthObject → String
  | .mk d _ _ _ _ => d

/-- `self.name` attribute of a `NearEarthObject` (`none` models Python `None`). -/
def NearEarthObject.name : NearEarthObject → Option String
  | .mk _ n _ _ _ => n

/-- `self.diameter` attribute of a `NearEarthObject`. -/
def NearEarthObject.diameter : NearEarthObject → PyFloat
  | .mk _ _ dia _ _ => dia

/-- `self.hazardous` attribute of a `NearEarthObject`. -/
def NearEarthObject.hazardous : NearEarthObject → Bool
  | .mk _ _ _ h _ => h

/-- `self.approaches` attribute of a `NearEarthObject`. -/
def NearEarthObject.approaches : NearEarthObject → List CloseApproach
  | .mk _ _ _ _ a => a

/-- `self._designation` attribute of a `CloseApproach`. -/
def CloseApproach.designationKey : CloseApproach → String
  | .mk d _ _ _ _ => d

/-- `self.time` attribute of a `CloseApproach`. -/
def CloseApproach.time : CloseApproach → PyDateTime
  | .mk _ t _ _ _ => t

/-- `self.distance` attribute of a `CloseApproach`. -/
def CloseApproach.distance : CloseApproach → PyFloat
  | .mk _ _ d _ _ => d

/-- `self.velocity` attribute of a `CloseApproach`. -/
def CloseApproach.velocity : CloseApproach → PyFloat
  | .mk _ _ _ v _ => v

/-- `self.neo` attribute of a `CloseApproach`. -/
def CloseApproach.neo : CloseApproach → Option NearEarthObject
  | .mk _ _ _ _ n => n

/-- `NearEarthObject.__init__(self, pdes, pha, name, diameter)`: plain
attribute assignment, no normalization; `approaches` starts empty. -/
def NearEarthObject.init (pdes : String) (pha : Bool) (name : Option String)
    (diameter : PyFloat) : NearEarthObject :=
  NearEarthObject.mk pdes name diameter pha []

/-- `NearEarthObject(pdes, pha)` with the defaulted keyword arguments of the
constructor signature: `name=None`, `diameter=float('nan')`. -/
def NearEarthObject.initDefault (pdes : String) (pha : Bool) : NearEarthObject :=
  NearEarthObject.init pdes pha none PyFloat.nan

/-- The `fullname` property: Python tests `if self.name:`, which is falsy both
for `None` and for the empty string, so either yields the bare designation. -/
def NearEarthObject.fullname (neo : NearEarthObject) : String :=
  match neo.name with
  | some n =>
    if n = "" then neo.designation
    else neo.designation ++ " (" ++ n ++ ")"
  | none => neo.designation

/-- `CloseApproach.__init__(self, des, cd, dist, v_rel)`: parses `cd` with
`cd_to_datetime` (which may raise), stores `dist` and `v_rel` unchanged, and
sets `self.neo = None`. -/
def CloseApproach.init (des : String) (cd : String) (dist : PyFloat)
    (v_rel : PyFloat) : Except PyError CloseApproach :=
  match cd_to_datetime cd with
  | Except.ok t => Except.ok (CloseApproach.mk des t dist v_rel none)
  | Except.error e => Except.error e

/-- The `time_str` property: `f"{datetime_to_str(self.time)}"`. -/
def CloseApproach.timeStr (ca : CloseApproach) : String :=
  datetime_to_str ca.time

/-- The flat record shape returned by `CloseApproach.formatted_to_csv`. -/
structure CsvRecord : Type where
  datetime_utc : String
  distance_au : PyFloat
  velocity_km_s : PyFloat
  designation : String
  name : Option String
  diameter_km : PyFloat
  potentially_hazardous : Bool

/-- The nested `neo` object of the JSON record shape. -/
structure NeoRecord : Type where
  designation : String
  name : Option String
  diameter_km : PyFloat
  potentially_hazardous : Bool

/-- The record shape returned by `CloseApproach.formatted_to_json`. -/
structure JsonRecord : Type where
  datetime_utc : String
  distance_au : PyFloat
  velocity_km_s : PyFloat
  neo : NeoRecord

/-- `CloseApproach.formatted_to_csv`: reads `self.neo.designation` etc.; when
`self.neo` is `None`, the attribute access raises `AttributeError`. -/
def CloseApproach.formattedToCsv (ca : CloseApproach) : Except PyError CsvRecord :=
  match ca.neo with
  | none => Except.error PyError.attributeError
  | some n =>
    Except.ok ⟨ca.timeStr, ca.distance, ca.velocity, n.designation, n.name,
      n.diameter, n.hazardous⟩

/-- `CloseApproach.formatted_to_json`: reads `self.neo.designation` etc.; when
`self.neo` is `None`, the attribute access raises `AttributeError`. -/
def CloseApproach.formattedToJson (ca : CloseApproach) : Except PyError JsonRecord :=
  match ca.neo with
  | none => Except.error PyError.attributeError
  | some n =>
    Except.ok ⟨ca.timeStr, ca.distance, ca.velocity,
      ⟨n.designation, n.name, n.diameter, n.hazardous⟩⟩

/-
Loaders (src/extract.py).
-/

/-- A CSV file as seen through `csv.DictReader`: the header row of field
names, then the data rows (the header row is not a data row). -/
structure CsvFile : Type where
  header : List String
  rows : List (List String)

/-- The close-approach JSON payload: a `fields` list of column names and a
`data` list of parallel row arrays (cell values modelled as strings, as in
the NASA close-approach feed). -/
structure CadJson : Type where
  fields : List String
  data : List (List String)

/-- Key lookup in a Python dict built by zipping field names with a row;
a missing key raises `KeyError`. -/
def dictLookup (d : List (String × String)) (k : String) : Except PyError String :=
  match d.lookup k with
  | some v => Except.ok v
  | none => Except.error PyError.keyError

/-- Field names looked up by the loaders. -/
def kPdes : String := "pdes"

/-- Field name of the IAU name column. -/
def kName : String := "name"

/-- Field name of the diameter column. -/
def kDiameter : String := "diameter"

/-- Field name of the hazardous-flag column. -/
def kPha : String := "pha"

/-- Field name of the designation column of the approach feed. -/
def kDes : String := "des"

/-- Field name of the calendar-date column of the approach feed. -/
def kCd : String := "cd"

/-- Field name of the distance column of the approach feed. -/
def kDist : String := "dist"

/-- Field name of the relative-velocity column of the approach feed. -/
def kVrel : String := "v_rel"

/-- Line 32 of src/extract.py: `True if neo["pha"] == 'Y' else False`.
A total Boolean coercion: no input can raise. -/
def coercePha (s : String) : Bool :=
  s == "Y"

/-- Line 33 of src/extract.py: `neo["name"] or None` — the empty string is
falsy, so it becomes `None`; any other string is kept verbatim. -/
def coerceName (s : String) : Option String :=
  if s = "" then none else some s

/-- Lines 34-35 of src/extract.py:
`float(neo["diameter"]) if neo["diameter"] else float('nan')` — empty string
is falsy and yields the NaN sentinel; otherwise `float` parses (and may
raise `ValueError`). -/
def coerceDiameter (s : String) : Except PyError PyFloat :=
  if s = "" then Except.ok PyFloat.nan else pyFloatFn s

/-- The body of the `load_neos` loop for one row dict: coerce `pha`, `name`
and `diameter` (lines 32-35, in source order), then construct the
`NearEarthObject` — `neo["pdes"]` is first read at the construction call
(line 37). -/
def neoFromDict (d : List (String × String)) : Except PyError NearEarthObject :=
  match dictLookup d kPha with
  | Except.error e => Except.error e
  | Except.ok phaS =>
    match dictLookup d kName with
    | Except.error e => Except.error e
    | Except.ok nameS =>
      match dictLookup d kDiameter with
      | Except.error e => Except.error e
      | Except.ok diaS =>
        match coerceDiameter diaS with
        | Except.error e => Except.error e
        | Except.ok dia =>
          match dictLookup d kPdes with
          | Except.error e => Except.error e
          | Except.ok pdes =>
            Except.ok (NearEarthObject.init pdes (coercePha phaS)
              (coerceName nameS) dia)

/-- The body of the `load_approaches` loop for one row dict: look up `des`,
`cd`, `dist`, `v_rel` (argument order of the constructor call, lines 66-69),
apply `float` to `dist` and `v_rel`, then run `CloseApproach.__init__`
(which parses `cd`). -/
def cadFromDict (d : List (String × String)) : Except PyError CloseApproach :=
  match dictLookup d kDes with
  | Except.error e => Except.error e
  | Except.ok des =>
    match dictLookup d kCd with
    | Except.error e => Except.error e
    | Except.ok cd =>
      match dictLookup d kDist with
      | Except.error e => Except.error e
      | Except.ok distS =>
        match pyFloatFn distS with
        | Except.error e => Except.error e
        | Except.ok dist =>
          match dictLookup d kVrel with
          | Except.error e => Except.error e
          | Except.ok vS =>
            match pyFloatFn vS with
            | Except.error e => Except.error e
            | Except.ok v => CloseApproach.init des cd dist v

/-- A fail-fast loop that builds one output entity per input element and
appends it to the result list; the first uncaught exception aborts the whole
call with no partial result — exactly the `for` loops of both loaders. -/
def loadAll {α β : Type} (f : α → Except PyError β) :
    List α → Except PyError (List β)
  | [] => Except.ok []
  | x :: xs =>
    match f x, loadAll f xs with
    | Except.ok y, Except.ok ys => Except.ok (y :: ys)
    | Except.error e, _ => Except.error e
    | Except.ok _, Except.error e => Except.error e

/-- One NEO row processed through the dict `csv.DictReader` yields for it
(field names zipped with the row's values). -/
def parseNeoRow (header : List String) (row : List String) :
    Except PyError NearEarthObject :=
  neoFromDict (header.zip row)

/-- One approach row processed through `dict(zip(cad_info["fields"], data))`
(line 58 of src/extract.py) and the loop body. -/
def parseCadRow (fields : List String) (row : List String) :
    Except PyError CloseApproach :=
  cadFromDict (fields.zip row)

/-- `load_neos` (src/extract.py, lines 21-45) over the parsed CSV contents:
one `NearEarthObject` per data row, in file order, fail-fast. -/
def load_neos (f : CsvFile) : Except PyError (List NearEarthObject) :=
  loadAll (parseNeoRow f.header) f.rows

/-- `load_approaches` (src/extract.py, lines 48-73) over the parsed JSON
payload: one `CloseApproach` per element of `data`, in file order,
fail-fast. -/
def load_approaches (f : CadJson) : Except PyError (List CloseApproach) :=
  loadAll (parseCadRow f.fields) f.data

/-- Whether an `Except` computation aborted with an exception. -/
def exceptFails {α : Type} : Except PyError α → Bool
  | Except.ok _ => false
  | Except.error _ => true

/-
Concrete inputs used to instantiate the theorems below.
-/

/-- Header of the example NEO CSV source. -/
def exampleHeader : List String := [kPdes, kName, kDiameter, kPha]

/-- Example NEO data row: named, empty diameter, not hazardous. -/
def exampleRow1 : List String := ["433", "Eros", "", "N"]

/-- Example NEO data row: same designation as `exampleRow1`, empty name,
empty diameter, hazardous flag `Y`. -/
def exampleRow2 : List String := ["433", "", "", "Y"]

/-- Example NEO data row with a non-empty numeric diameter cell. -/
def exampleRow3 : List String := ["433", "Eros", "2.5", "N"]

/-- Example NEO data row with a non-empty, non-numeric diameter cell. -/
def badDiameterRow : List String := ["433", "Eros", "abc", "N"]

/-- Example CSV source: two data rows sharing one designation. -/
def exampleCsv : CsvFile := ⟨exampleHeader, [exampleRow1, exampleRow2]⟩

/-- Example CSV source whose single row has an unparsable diameter. -/
def badDiameterCsv : CsvFile := ⟨exampleHeader, [badDiameterRow]⟩

/-- The entity `load_neos` builds from `exampleRow1`. -/
def exampleNeo1 : NearEarthObject :=
  NearEarthObject.mk "433" (some "Eros") PyFloat.nan false []

/-- The entity `load_neos` builds from `exampleRow2`. -/
def exampleNeo2 : NearEarthObject :=
  NearEarthObject.mk "433" none PyFloat.nan true []

/-- The entity `load_neos` builds from `exampleRow3`. -/
def exampleNeo3 : NearEarthObject :=
  NearEarthObject.mk "433" (some "Eros") (PyFloat.finite (5 / 2)) false []

/-- Fields list of the example close-approach source. -/
def exampleFields : List String := [kDes, kCd, kDist, kVrel]

/-- An example compact approach date/time string. -/
def exampleCd : String := "1900-Jan-01 12:00"

/-- The datetime parsed from `exampleCd`. -/
def exampleTime : PyDateTime := ⟨1900, 1, 1, 12, 0⟩

/-- Example approach data row. -/
def exampleCadRow : List String := ["433", exampleCd, "1", "5"]

/-- Extra trailing values appended to a row to exercise zip truncation. -/
def exampleExtra : List String := ["junk", "junk2"]

/-- Example approach row whose `dist` cell is not numeric. -/
def badDistRow : List String := ["433", exampleCd, "xx", "5.5"]

/-- Example approach source with one well-formed row. -/
def exampleCad : CadJson := ⟨exampleFields, [exampleCadRow]⟩

/-- Example approach source whose single row has an unparsable distance. -/
def badDistCad : CadJson := ⟨exampleFields, [badDistRow]⟩

/-- The entity `load_approaches` builds from `exampleCadRow`. -/
def exampleCa : CloseApproach :=
  CloseApproach.mk "433" exampleTime (PyFloat.finite 1) (PyFloat.finite 5) none

/-- The raw string of the bad diameter cell. -/
def badDiaS : String := "abc"

/-- The raw string of the bad distance cell. -/
def badDistS : String := "xx"

/-- The raw hazardous-flag value of `exampleRow1`. -/
def exRawN : String := "N"

/-- The raw hazardous-flag value of `exampleRow2`. -/
def exRawY : String := "Y"

/-- The raw diameter value of `exampleRow3`. -/
def exRawDia : String := "2.5"

/-- The empty raw cell value. -/
def exRawEmpty : String := ""

/-- The raw name value of `exampleRow1`. -/
def exRawEros : String := "Eros"

/-- The example designation string. -/
def exDes433 : String := "433"

/-- A fail-fast loop that returns `ok` produced exactly one output per input. -/
theorem loadAll_ok_length {α β : Type} (f : α → Except PyError β) :
    ∀ xs ys, loadAll f xs = Except.ok ys → ys.length = xs.length := by
  intro xs
  induction xs with
  | nil =>
    intro ys h
    simp only [loadAll] at h
    cases h
    rfl
  | cons x xs ih =>
    intro ys h
    simp only [loadAll] at h
    cases hfx : f x with
    | error e => rw [hfx] at h; cases h
    | ok y =>
      rw [hfx] at h
      cases hrest : loadAll f xs with
      | error e => rw [hrest] at h; cases h
      | ok ys2 =>
        rw [hrest] at h
        cases h
        simp [ih ys2 hrest]

/-- A fail-fast loop that returns `ok` maps the i-th input to the i-th
output, preserving order. -/
theorem loadAll_ok_get {α β : Type} (f : α → Except PyError β) :
    ∀ xs ys, loadAll f xs = Except.ok ys → ∀ i, i < xs.length →
      ∃ x y, xs[i]? = some x ∧ ys[i]? = some y ∧ f x = Except.ok y := by
  intro xs
  induction xs with
  | nil =>
    intro ys h i hi
    simp at hi
  | cons x xs ih =>
    intro ys h i hi
    simp only [loadAll] at h
    cases hfx : f x with
    | error e => rw [hfx] at h; cases h
    | ok y =>
      rw [hfx] at h
      cases hrest : loadAll f xs with
      | error e => rw [hrest] at h; cases h
      | ok ys2 =>
        rw [hrest] at h
        cases h
        cases i with
        | zero => exact ⟨x, y, by simp, by simp, hfx⟩
        | succ n =>
          have hn : n < xs.length := by simpa using hi
          obtain ⟨a, b, ha, hb, hab⟩ := ih ys2 hrest n hn
          exact ⟨a, b, by simpa using ha, by simpa using hb, hab⟩

/-- If the per-row function raises on any element of the input, the whole
fail-fast loop aborts with an exception (no partial result). -/
theorem loadAll_fails_of_mem {α β : Type} (f : α → Except PyError β) :
    ∀ xs x, x ∈ xs → exceptFails (f x) = true →
      exceptFails (loadAll f xs) = true := by
  intro xs
  induction xs with
  | nil =>
    intro x hx
    cases hx
  | cons y ys ih =>
    intro x hx hfail
    simp only [loadAll]
    cases hfy : f y with
    | error e => simp [exceptFails]
    | ok b =>
      rcases List.mem_cons.mp hx with h1 | h2
      · subst h1
        rw [hfy] at hfail
        simp [exceptFails] at hfail
      · have hrec := ih x h2 hfail
        cases hrest : loadAll f ys with
        | error e => simp [exceptFails]
        | ok bs =>
          rw [hrest] at hrec
          simp [exceptFails] at hrec

/-- Success of the NEO loop body decomposes into its lookups and coercions:
the entity is built from the row's `pdes`, coerced `pha`, coerced `name`
and coerced `diameter`. -/
theorem neoFromDict_ok (d : List (String × String)) (neo : NearEarthObject)
    (h : neoFromDict d = Except.ok neo) :
    ∃ phaS nameS diaS dia pdes,
      dictLookup d kPha = Except.ok phaS ∧
      dictLookup d kName = Except.ok nameS ∧
      dictLookup d kDiameter = Except.ok diaS ∧
      coerceDiameter diaS = Except.ok dia ∧
      dictLookup d kPdes = Except.ok pdes ∧
      neo = NearEarthObject.init pdes (coercePha phaS) (coerceName nameS) dia := by
  unfold neoFromDict at h
  cases h1 : dictLookup d kPha with
  | error e => simp only [h1] at h; cases h
  | ok phaS =>
    simp only [h1] at h
    cases h2 : dictLookup d kName with
    | error e => simp only [h2] at h; cases h
    | ok nameS =>
      simp only [h2] at h
      cases h3 : dictLookup d kDiameter with
      | error e => simp only [h3] at h; cases h
      | ok diaS =>
        simp only [h3] at h
        cases h4 : coerceDiameter diaS with
        | error e => simp only [h4] at h; cases h
        | ok dia =>
          simp only [h4] at h
          cases h5 : dictLookup d kPdes with
          | error e => simp only [h5] at h; cases h
          | ok pdes =>
            simp only [h5] at h
            cases h
            exact ⟨phaS, nameS, diaS, dia, pdes, rfl, rfl, rfl, h4, rfl, rfl⟩

/-- Success of the approach loop body decomposes into its lookups, float
parses and the datetime parse of `CloseApproach.__init__`; the entity stores
`des`, the parsed time, the parsed distance and velocity, and `neo = None`. -/
theorem cadFromDict_ok (d : List (String × String)) (ca : CloseApproach)
    (h : cadFromDict d = Except.ok ca) :
    ∃ des cd distS dist vS v t,
      dictLookup d kDes = Except.ok des ∧
      dictLookup d kCd = Except.ok cd ∧
      dictLookup d kDist = Except.ok distS ∧
      pyFloatFn distS = Except.ok dist ∧
      dictLookup d kVrel = Except.ok vS ∧
      pyFloatFn vS = Except.ok v ∧
      cd_to_datetime cd = Except.ok t ∧
      ca = CloseApproach.mk des t dist v none := by
  unfold cadFromDict at h
  cases h1 : dictLookup d kDes with
  | error e => simp only [h1] at h; cases h
  | ok des =>
    simp only [h1] at h
    cases h2 : dictLookup d kCd with
    | error e => simp only [h2] at h; cases h
    | ok cd =>
      simp only [h2] at h
      cases h3 : dictLookup d kDist with
      | error e => simp only [h3] at h; cases h
      | ok distS =>
        simp only [h3] at h
        cases h4 : pyFloatFn distS with
        | error e => simp only [h4] at h; cases h
        | ok dist =>
          simp only [h4] at h
          cases h5 : dictLookup d kVrel with
          | error e => simp only [h5] at h; cases h
          | ok vS =>
            simp only [h5] at h
            cases h6 : pyFloatFn vS with
            | error e => simp only [h6] at h; cases h
            | ok v =>
              simp only [h6] at h
              unfold CloseApproach.init at h
              cases h7 : cd_to_datetime cd with
              | error e => simp only [h7] at h; cases h
              | ok t =>
                simp only [h7] at h
                cases h
                exact ⟨des, cd, distS, dist, vS, v, t,
                  rfl, rfl, rfl, h4, rfl, h6, h7, rfl⟩

/-- A NEO row whose diameter cell is non-empty and does not parse as a float
makes the loop body raise (the `ValueError` of `float`). -/
theorem neoFromDict_fails_of_bad_diameter (d : List (String × String))
    (diaS : String) (h1 : dictLookup d kDiameter = Except.ok diaS)
    (h2 : diaS ≠ "") (h3 : parseFloat diaS = none) :
    exceptFails (neoFromDict d) = true := by
  cases hfinal : neoFromDict d with
  | error e => rfl
  | ok neo =>
    exfalso
    obtain ⟨phaS, nameS, diaS2, dia, pdes, _, _, hd, hcd, _, _⟩ :=
      neoFromDict_ok d neo hfinal
    rw [h1] at hd
    injection hd with hdd
    subst hdd
    unfold coerceDiameter pyFloatFn at hcd
    rw [if_neg h2, h3] at hcd
    cases hcd

/-- An approach row whose `dist` cell does not parse as a float makes the
loop body raise. -/
theorem cadFromDict_fails_of_bad_dist (d : List (String × String))
    (distS : String) (h1 : dictLookup d kDist = Except.ok distS)
    (h2 : parseFloat distS = none) :
    exceptFails (cadFromDict d) = true := by
  cases hfinal : cadFromDict d with
  | error e => rfl
  | ok ca =>
    exfalso
    obtain ⟨des, cd, distS2, dist, vS, v, t, _, _, hd, hp, _, _, _, _⟩ :=
      cadFromDict_ok d ca hfinal
    rw [h1] at hd
    injection hd with hdd
    subst hdd
    unfold pyFloatFn at hp
    rw [h2] at hp
    cases hp

/-- An approach row whose `v_rel` cell does not parse as a float makes the
loop body raise. -/
theorem cadFromDict_fails_of_bad_vrel (d : List (String × String))
    (vS : String) (h1 : dictLookup d kVrel = Except.ok vS)
    (h2 : parseFloat vS = none) :
    exceptFails (cadFromDict d) = true := by
  cases hfinal : cadFromDict d with
  | error e => rfl
  | ok ca =>
    exfalso
    obtain ⟨des, cd, distS, dist, vS2, v, t, _, _, _, _, hv, hp, _, _⟩ :=
      cadFromDict_ok d ca hfinal
    rw [h1] at hv
    injection hv with hvv
    subst hvv
    unfold pyFloatFn at hp
    rw [h2] at hp
    cases hp

/-- Zipping a fields list with a longer row ignores the row's extra trailing
values (the semantics of Python's `zip`). -/
theorem zip_truncates {α β : Type} :
    ∀ (l1 : List α) (l2 ex : List β), l1.length ≤ l2.length →
      l1.zip (l2 ++ ex) = l1.zip l2 := by
  intro l1
  induction l1 with
  | nil =>
    intro l2 ex _
    simp
  | cons a l1 ih =>
    intro l2 ex h
    cases l2 with
    | nil => simp at h
    | cons b l2 =>
      simp only [List.cons_append, List.zip_cons_cons]
      rw [ih l2 ex (by simpa using h)]

/-- The padded decimal digits never render as a colon. -/
theorem digit10_ne_colon (n : Nat) : digit10 n ≠ ':' := by
  unfold digit10
  have h10 : n % 10 < 10 := Nat.mod_lt _ (by norm_num)
  set k := n % 10 with hk
  interval_cases k <;> decide

/-- A two-digit field contributes no colon to the rendered time. -/
theorem count_colon_pad2 (n : Nat) : ((pad2 n).toList.count ':') = 0 := by
  simp [pad2, String.toList, List.count_cons, digit10_ne_colon]

/-- A four-digit field contributes no colon to the rendered time. -/
theorem count_colon_pad4 (n : Nat) : ((pad4 n).toList.count ':') = 0 := by
  simp [pad4, String.toList, List.count_cons, digit10_ne_colon]

/-- The rendered approach time contains exactly one colon: the one between
hours and minutes. A rendering with a seconds component would contain two. -/
theorem count_colon_datetime_to_str (t : PyDateTime) :
    ((datetime_to_str t).toList.count ':') = 1 := by
  have hd : ((String.toList "-").count ':') = 0 := by decide
  have hs : ((String.toList " ").count ':') = 0 := by decide
  have hc : ((String.toList ":").count ':') = 1 := by decide
  unfold datetime_to_str
  simp only [String.toList, String.data_append, List.count_append]
  simp only [String.toList] at hd hs hc
  rw [hd, hs, hc]
  have p2h := count_colon_pad2 t.hour
  have p2m := count_colon_pad2 t.month
  have p2d := count_colon_pad2 t.day
  have p2n := count_colon_pad2 t.minute
  have p4y := count_colon_pad4 t.year
  simp only [String.toList] at p2h p2m p2d p2n p4y
  rw [p2h, p2m, p2d, p2n, p4y]

/-- C1: for every NEO CSV source, a successful `load_neos` returns exactly
one `NearEarthObject` per data row (the header is not a data row), in file
order, with no deduplication: the i-th entity is built from the i-th row,
and the result length equals the number of data rows, so two rows sharing a
designation produce two distinct entities. -/
theorem load_neos_one_entity_per_row_in_order (f : CsvFile)
    (neos : List NearEarthObject) (h : load_neos f = Except.ok neos) :
    neos.length = f.rows.length ∧
    ∀ i, i < f.rows.length →
      ∃ row neo, f.rows[i]? = some row ∧ neos[i]? = some neo ∧
        parseNeoRow f.header row = Except.ok neo := by
  have h2 : loadAll (parseNeoRow f.header) f.rows = Except.ok neos := h
  refine ⟨loadAll_ok_length _ _ _ h2, ?_⟩
  intro i hi
  exact loadAll_ok_get _ _ _ h2 i hi

/-- C1 witness: the two-row example file with a duplicated designation loads
to exactly two entities, and the theorem applies to it. -/
theorem load_neos_one_entity_per_row_in_order_witness :
    load_neos exampleCsv = Except.ok [exampleNeo1, exampleNeo2] ∧
    List.length [exampleNeo1, exampleNeo2] = exampleCsv.rows.length := by
  have h : load_neos exampleCsv = Except.ok [exampleNeo1, exampleNeo2] := by rfl
  exact ⟨h, (load_neos_one_entity_per_row_in_order exampleCsv _ h).1⟩

/-- C2: a row whose required numeric field does not parse as a float makes
the whole load call abort with a parse error and return no entities at all:
a non-empty non-numeric diameter aborts `load_neos`, and a non-numeric
`dist` or `v_rel` aborts `load_approaches` (atomicity: the whole collection
or nothing). -/
theorem loaders_fail_fast_on_unparsable_numeric (nf : CsvFile) (af : CadJson) :
    (∀ row ∈ nf.rows, ∀ diaS,
        dictLookup (nf.header.zip row) kDiameter = Except.ok diaS →
        diaS ≠ "" → parseFloat diaS = none →
        exceptFails (load_neos nf) = true) ∧
    (∀ row ∈ af.data, ∀ distS,
        dictLookup (af.fields.zip row) kDist = Except.ok distS →
        parseFloat distS = none →
        exceptFails (load_approaches af) = true) ∧
    (∀ row ∈ af.data, ∀ vS,
        dictLookup (af.fields.zip row) kVrel = Except.ok vS →
        parseFloat vS = none →
        exceptFails (load_approaches af) = true) := by
  refine ⟨?_, ?_, ?_⟩
  · intro row hrow diaS h1 h2 h3
    exact loadAll_fails_of_mem _ _ row hrow
      (neoFromDict_fails_of_bad_diameter _ diaS h1 h2 h3)
  · intro row hrow distS h1 h2
    exact loadAll_fails_of_mem _ _ row hrow
      (cadFromDict_fails_of_bad_dist _ distS h1 h2)
  · intro row hrow vS h1 h2
    exact loadAll_fails_of_mem _ _ row hrow
      (cadFromDict_fails_of_bad_vrel _ vS h1 h2)

/-- C2 witness: the example files with an unparsable diameter cell and an
unparsable distance cell each make their whole load call fail. -/
theorem loaders_fail_fast_on_unparsable_numeric_witness :
    exceptFails (load_neos badDiameterCsv) = true ∧
    exceptFails (load_approaches badDistCad) = true := by
  constructor
  · exact (loaders_fail_fast_on_unparsable_numeric badDiameterCsv badDistCad).1
      badDiameterRow (by simp [badDiameterCsv]) badDiaS (by rfl) (by decide)
      (by rfl)
  · exact (loaders_fail_fast_on_unparsable_numeric badDiameterCsv badDistCad).2.1
      badDistRow (by simp [badDistCad]) badDistS (by rfl) (by rfl)

/-- C3: for every loaded NEO row, the entity's hazardous field is true iff
the raw `pha` value equals the literal `Y` (every other value, the empty
string included, gives false), and the coercion is a total Boolean function,
so it can never raise. -/
theorem hazardous_iff_pha_flag_Y :
    (∀ s, coercePha s = true ↔ s = "Y") ∧
    (∀ header row neo phaS,
        parseNeoRow header row = Except.ok neo →
        dictLookup (header.zip row) kPha = Except.ok phaS →
        neo.hazardous = coercePha phaS) := by
  constructor
  · intro s
    simp [coercePha]
  · intro header row neo phaS h hp
    obtain ⟨phaS2, nameS, diaS, dia, pdes, hp2, _, _, _, _, hneo⟩ :=
      neoFromDict_ok _ neo h
    rw [hp] at hp2
    injection hp2 with he
    subst he
    subst hneo
    rfl

/-- C3 witness: the flag of the first example row is `N`, giving false; the
second row's flag `Y` gives true on the loaded entity. -/
theorem hazardous_iff_pha_flag_Y_witness :
    (coercePha exRawN = true ↔ exRawN = "Y") ∧
    exampleNeo2.hazardous = coercePha exRawY := by
  constructor
  · exact hazardous_iff_pha_flag_Y.1 exRawN
  · exact hazardous_iff_pha_flag_Y.2 exampleHeader exampleRow2 exampleNeo2
      exRawY (by rfl) (by rfl)

/-- C4: an empty diameter cell yields the NaN sentinel on the loaded entity
(in particular not the float zero, and the field is a float, not an absent
value); a non-empty cell yields exactly the value `float` parses from it. -/
theorem diameter_empty_nan_else_parsed (header row : List String)
    (neo : NearEarthObject) (diaS : String)
    (h : parseNeoRow header row = Except.ok neo)
    (hd : dictLookup (header.zip row) kDiameter = Except.ok diaS) :
    (diaS = "" → neo.diameter = PyFloat.nan ∧ neo.diameter ≠ PyFloat.finite 0) ∧
    (diaS ≠ "" → parseFloat diaS = some neo.diameter) := by
  obtain ⟨phaS, nameS, diaS2, dia, pdes, _, _, hd2, hcd, _, hneo⟩ :=
    neoFromDict_ok _ neo h
  rw [hd] at hd2
  injection hd2 with he
  subst he
  subst hneo
  constructor
  · intro hempty
    unfold coerceDiameter at hcd
    rw [if_pos hempty] at hcd
    injection hcd with hv
    constructor
    · exact hv.symm
    · show dia ≠ PyFloat.finite 0
      rw [← hv]
      intro hcontra
      cases hcontra
  · intro hne
    unfold coerceDiameter pyFloatFn at hcd
    rw [if_neg hne] at hcd
    cases hpf : parseFloat diaS with
    | none => rw [hpf] at hcd; cases hcd
    | some fv =>
      rw [hpf] at hcd
      injection hcd with hv
      exact congrArg some hv

/-- C4 witness: the empty diameter cell of the first example row gives the
NaN sentinel, and the cell `2.5` of the third row parses to 5/2. -/
theorem diameter_empty_nan_else_parsed_witness :
    (exampleNeo1.diameter = PyFloat.nan ∧
      exampleNeo1.diameter ≠ PyFloat.finite 0) ∧
    parseFloat exRawDia = some exampleNeo3.diameter := by
  have hq : mantissaVal (['2']) (['5']) = (5 : ℚ) / 2 := by
    unfold mantissaVal digitsVal
    have h2 : ('2'.toNat - 48 : Nat) = 2 := rfl
    have h5 : ('5'.toNat - 48 : Nat) = 5 := rfl
    simp only [List.foldl, List.length_singleton, h2, h5]
    norm_num
  have hload : parseNeoRow exampleHeader exampleRow3 =
      Except.ok (NearEarthObject.mk "433" (some "Eros")
        (PyFloat.finite (mantissaVal (['2']) (['5']))) false []) := by rfl
  rw [hq] at hload
  constructor
  · exact (diameter_empty_nan_else_parsed exampleHeader exampleRow1
      exampleNeo1 exRawEmpty (by rfl) (by rfl)).1 (by rfl)
  · exact (diameter_empty_nan_else_parsed exampleHeader exampleRow3
      exampleNeo3 exRawDia hload (by rfl)).2 (by decide)

/-- C5: a loaded NEO row with an empty name cell yields an absent name
(`none`, not the empty string) and a `fullname` equal to the bare
designation; a row with a non-empty name cell yields that name and a
`fullname` of the form `designation (name)`. -/
theorem name_absent_and_fullname (header row : List String)
    (neo : NearEarthObject) (nameS : String)
    (h : parseNeoRow header row = Except.ok neo)
    (hn : dictLookup (header.zip row) kName = Except.ok nameS) :
    (nameS = "" → neo.name = none ∧ neo.fullname = neo.designation) ∧
    (nameS ≠ "" → neo.name = some nameS ∧
      neo.fullname = neo.designation ++ " (" ++ nameS ++ ")") := by
  obtain ⟨phaS, nameS2, diaS, dia, pdes, _, hn2, _, _, _, hneo⟩ :=
    neoFromDict_ok _ neo h
  rw [hn] at hn2
  injection hn2 with he
  subst he
  subst hneo
  constructor
  · intro hempty
    constructor
    · show coerceName nameS = none
      simp [coerceName, hempty]
    · show NearEarthObject.fullname _ = _
      unfold NearEarthObject.fullname
      simp [NearEarthObject.init, NearEarthObject.name, coerceName, hempty]
  · intro hne
    constructor
    · show coerceName nameS = some nameS
      simp [coerceName, hne]
    · show NearEarthObject.fullname _ = _
      unfold NearEarthObject.fullname
      simp [NearEarthObject.init, NearEarthObject.name,
        NearEarthObject.designation, coerceName, hne]

/-- C5 witness: the second example row has an empty name cell and its entity
has an absent name and bare-designation fullname; the first row's entity
renders `433 (Eros)`. -/
theorem name_absent_and_fullname_witness :
    (exampleNeo2.name = none ∧ exampleNeo2.fullname = exampleNeo2.designation) ∧
    (exampleNeo1.name = some exRawEros ∧
      exampleNeo1.fullname = exampleNeo1.designation ++ " (" ++ exRawEros ++ ")") := by
  constructor
  · exact (name_absent_and_fullname exampleHeader exampleRow2 exampleNeo2
      exRawEmpty (by rfl) (by rfl)).1 (by rfl)
  · exact (name_absent_and_fullname exampleHeader exampleRow1 exampleNeo1
      exRawEros (by rfl) (by rfl)).2 (by decide)

/-- C6: constructing a `CloseApproach` from `(des, cd, dist, v_rel)` with a
well-formed compact date/time string succeeds, reading back `distance` and
`velocity` yields exactly the original values, and `time_str` renders the
parsed time with a single colon — the hours/minutes separator — hence no
seconds component. -/
theorem closeApproach_round_trip (des cd : String) (dist v : PyFloat)
    (t : PyDateTime) (h : cd_to_datetime cd = Except.ok t) :
    CloseApproach.init des cd dist v =
      Except.ok (CloseApproach.mk des t dist v none) ∧
    (CloseApproach.mk des t dist v none).distance = dist ∧
    (CloseApproach.mk des t dist v none).velocity = v ∧
    (CloseApproach.mk des t dist v none).timeStr = datetime_to_str t ∧
    (((CloseApproach.mk des t dist v none).timeStr.toList.count ':') = 1) := by
  refine ⟨?_, rfl, rfl, rfl, ?_⟩
  · unfold CloseApproach.init
    rw [h]
  · exact count_colon_datetime_to_str t

/-- C6 witness: the tuple `("433", "1900-Jan-01 12:00", 0.3, 5.5)` round
trips and its rendered time contains no seconds separator. -/
theorem closeApproach_round_trip_witness :
    cd_to_datetime exampleCd = Except.ok exampleTime ∧
    CloseApproach.init exDes433 exampleCd (PyFloat.finite (3 / 10))
        (PyFloat.finite (11 / 2)) =
      Except.ok (CloseApproach.mk exDes433 exampleTime (PyFloat.finite (3 / 10))
        (PyFloat.finite (11 / 2)) none) ∧
    (CloseApproach.mk exDes433 exampleTime (PyFloat.finite (3 / 10))
        (PyFloat.finite (11 / 2)) none).distance = PyFloat.finite (3 / 10) ∧
    (((CloseApproach.mk exDes433 exampleTime (PyFloat.finite (3 / 10))
        (PyFloat.finite (11 / 2)) none).timeStr.toList.count ':') = 1) := by
  have h : cd_to_datetime exampleCd = Except.ok exampleTime := by rfl
  have hall := closeApproach_round_trip exDes433 exampleCd
    (PyFloat.finite (3 / 10)) (PyFloat.finite (11 / 2)) exampleTime h
  exact ⟨h, hall.1, hall.2.1, hall.2.2.2.2⟩

/-- C7: a successful `load_approaches` returns one `CloseApproach` per row
of the data list, in file order; each entity's designation key is the row's
`des` value passed through unmodified, and the `neo` reference is absent
(`none`) on every returned entity. -/
theorem load_approaches_order_unlinked_des_passthrough (f : CadJson)
    (cas : List CloseApproach) (h : load_approaches f = Except.ok cas) :
    cas.length = f.data.length ∧
    ∀ i, i < f.data.length →
      ∃ row ca, f.data[i]? = some row ∧ cas[i]? = some ca ∧
        parseCadRow f.fields row = Except.ok ca ∧
        ca.neo = none ∧
        dictLookup (f.fields.zip row) kDes = Except.ok ca.designationKey := by
  have h2 : loadAll (parseCadRow f.fields) f.data = Except.ok cas := h
  refine ⟨loadAll_ok_length _ _ _ h2, ?_⟩
  intro i hi
  obtain ⟨row, ca, hr, hc, hok⟩ := loadAll_ok_get _ _ _ h2 i hi
  obtain ⟨des, cd, distS, dist, vS, v, t, hdes, _, _, _, _, _, _, hca⟩ :=
    cadFromDict_ok _ ca hok
  refine ⟨row, ca, hr, hc, hok, ?_, ?_⟩
  · rw [hca]
    rfl
  · rw [hca]
    exact hdes

/-- C7 witness: the one-row example approach source loads to exactly the
expected unlinked entity. -/
theorem load_approaches_order_unlinked_des_passthrough_witness :
    load_approaches exampleCad = Except.ok [exampleCa] ∧
    List.length [exampleCa] = exampleCad.data.length ∧
    exampleCa.neo = none := by
  have h : load_approaches exampleCad = Except.ok [exampleCa] := by rfl
  refine ⟨h, (load_approaches_order_unlinked_des_passthrough exampleCad _ h).1, ?_⟩
  obtain ⟨row, ca, _, hc, _, hneo, _⟩ :=
    (load_approaches_order_unlinked_des_passthrough exampleCad _ h).2 0
      (by decide)
  cases hc
  exact hneo

/-- C8: both flat-record accessors have the unstated precondition that the
approach has been linked: on any `CloseApproach` whose `neo` reference is
still absent, `formatted_to_csv` and `formatted_to_json` fail with an
`AttributeError` instead of returning a record. -/
theorem formatted_records_require_linked_neo (ca : CloseApproach)
    (h : ca.neo = none) :
    CloseApproach.formattedToCsv ca = Except.error PyError.attributeError ∧
    CloseApproach.formattedToJson ca = Except.error PyError.attributeError := by
  unfold CloseApproach.formattedToCsv CloseApproach.formattedToJson
  rw [h]
  exact ⟨rfl, rfl⟩

/-- C8 witness: the freshly loaded example approach, not yet linked, makes
both accessors raise. -/
theorem formatted_records_require_linked_neo_witness :
    CloseApproach.formattedToCsv exampleCa = Except.error PyError.attributeError ∧
    CloseApproach.formattedToJson exampleCa = Except.error PyError.attributeError :=
  formatted_records_require_linked_neo exampleCa (by rfl)

/-- C9: in `load_approaches`, a data row longer than the fields list is
silently truncated by the zip-based dict reconstruction: the extra trailing
values are ignored, no error is raised, and the row yields the same entity
as the row without them. -/
theorem parseCadRow_ignores_extra_row_values (fields base extra : List String)
    (h : fields.length ≤ base.length) :
    parseCadRow fields (base ++ extra) = parseCadRow fields base := by
  unfold parseCadRow
  rw [zip_truncates fields base extra h]

/-- C9 witness: appending junk values to the well-formed example row changes
nothing — the extended row still yields the example entity. -/
theorem parseCadRow_ignores_extra_row_values_witness :
    parseCadRow exampleFields (exampleCadRow ++ exampleExtra) =
      parseCadRow exampleFields exampleCadRow ∧
    parseCadRow exampleFields (exampleCadRow ++ exampleExtra) =
      Except.ok exampleCa := by
  have h := parseCadRow_ignores_extra_row_values exampleFields exampleCadRow
    exampleExtra (by decide)
  have h2 : parseCadRow exampleFields exampleCadRow = Except.ok exampleCa := by
    rfl
  exact ⟨h, h.trans h2⟩

/-- C10: the `NearEarthObject` constructor performs no normalization: the
defaulted arguments give `name = None` and a NaN diameter, while a NEO
constructed directly with the empty string as name stores the empty string
(the name is not absent) — yet `fullname` still returns the bare designation
because it tests truthiness, not presence. -/
theorem neo_init_verbatim_fullname_truthiness :
    (∀ pdes pha, (NearEarthObject.initDefault pdes pha).name = none ∧
      (NearEarthObject.initDefault pdes pha).diameter = PyFloat.nan) ∧
    (∀ pdes pha dia,
      (NearEarthObject.init pdes pha (some "") dia).name = some "" ∧
      (NearEarthObject.init pdes pha (some "") dia).name ≠ none ∧
      (NearEarthObject.init pdes pha (some "") dia).fullname = pdes) := by
  constructor
  · intro pdes pha
    exact ⟨rfl, rfl⟩
  · intro pdes pha dia
    refine ⟨rfl, by simp [NearEarthObject.init, NearEarthObject.name], ?_⟩
    rfl
